import Mathlib

/-!
Shallow embedding of the data-processing logic of
`src/components/AirQualityIndex.jsx` (air-quality dashboard):
the geocoding search (`loadOptions`), the haversine distance
(`calculateDistance`), station selection (sort ascending by distance,
slice to 3, lines 104-116 of `fetchAQI`), reading aggregation
(`processStationData`, `weightedAverage`, and the `Promise.all` join of
lines 118-147), and the forecast chart formatter (`prepareChartData`).

JavaScript numbers are modelled as `ℚ` wherever the code only moves them
around or does rational arithmetic, and as `ℝ` for the trigonometric
distance computation.  `undefined`/`null` are modelled with `Option`.
-/

/-- JS `Math.round`: rounds half toward positive infinity. -/
def jsRound (q : ℚ) : ℤ := ⌊q + 1 / 2⌋

/-- A coordinate as stored in a geocode result (`{ lat, lng }`, lines 63-66). -/
structure Coordinate where
  lat : ℚ
  lng : ℚ
  deriving DecidableEq

/-- One entry of the Nominatim search response, with `lat`/`lon` already
through `parseFloat` (lines 62-67). -/
structure NominatimItem where
  lat : ℚ
  lon : ℚ
  display_name : String
  deriving DecidableEq

/-- An option handed to the select widget by `loadOptions`.  Successful
entries carry a coordinate and omit `isDisabled` (modelled as `false`);
sentinel entries have `value: null` and `isDisabled: true`. -/
structure GeocodeOption where
  label : String
  value : Option Coordinate
  isDisabled : Bool
  deriving DecidableEq

/-- Outcome of the single Nominatim GET issued by `loadOptions`:
either a parsed response body or a network/parse failure (the `catch`
arm of lines 69-76). -/
inductive NetResponse where
  | ok (items : List NominatimItem)
  | err

/-- The geocoder search, `loadOptions` (lines 46-77).  The second
component counts network calls issued (0 or 1), so that the
"no network call" part of the contract is visible in the model.
`!inputValue` is true exactly for the empty string, which is the only
falsy string value in JS. -/
def loadOptions (inputValue : String) (net : NetResponse) : List GeocodeOption × Nat :=
  if inputValue = "" then ([], 0)
  else
    match net with
    | NetResponse.err =>
        ([{ label := "Error loading locations", value := none, isDisabled := true }], 1)
    | NetResponse.ok items =>
        if items.length = 0 then
          ([{ label := "No locations found", value := none, isDisabled := true }], 1)
        else
          ((items.map fun item =>
            { label := item.display_name
              value := some { lat := item.lat, lng := item.lon }
              isDisabled := false }).take 5, 1)

/-- JS `Math.atan2 y x` on the reals (piecewise definition by quadrant). -/
noncomputable def atan2 (y x : ℝ) : ℝ :=
  if 0 < x then Real.arctan (y / x)
  else if x < 0 ∧ 0 ≤ y then Real.arctan (y / x) + Real.pi
  else if x < 0 ∧ y < 0 then Real.arctan (y / x) - Real.pi
  else if 0 < y then Real.pi / 2
  else if y < 0 then -(Real.pi / 2)
  else 0

/-- The local `a` of `calculateDistance` (lines 154-157):
`sin²(dLat/2) + cos(lat1)·cos(lat2)·sin²(dLon/2)` with the angles
converted to radians. -/
noncomputable def haversineTerm (lat1 lon1 lat2 lon2 : ℝ) : ℝ :=
  Real.sin ((lat2 - lat1) * Real.pi / 180 / 2) *
      Real.sin ((lat2 - lat1) * Real.pi / 180 / 2) +
    Real.cos (lat1 * Real.pi / 180) * Real.cos (lat2 * Real.pi / 180) *
      (Real.sin ((lon2 - lon1) * Real.pi / 180 / 2) *
        Real.sin ((lon2 - lon1) * Real.pi / 180 / 2))

/-- `calculateDistance` (lines 149-160): haversine great-circle distance
with mean Earth radius 6371 km. -/
noncomputable def calculateDistance (lat1 lon1 lat2 lon2 : ℝ) : ℝ :=
  6371 * (2 * atan2 (Real.sqrt (haversineTerm lat1 lon1 lat2 lon2))
    (Real.sqrt (1 - haversineTerm lat1 lon1 lat2 lon2)))

/-- A station summary from the bounds API (`{ uid, lat, lon, ... }`). -/
structure RawStation where
  uid : Nat
  lat : ℚ
  lon : ℚ

/-- A station with the transient `distance` field attached by the spread
`{ ...station, distance: calculateDistance(...) }` (lines 106-114). -/
structure RankedStation where
  station : RawStation
  distance : ℝ

/-- The `.map` step of lines 105-114: attach the distance from the query
coordinate to a candidate station. -/
noncomputable def attachDistance (origin : Coordinate) (station : RawStation) : RankedStation :=
  { station := station
    distance := calculateDistance origin.lat origin.lng station.lat station.lon }

/-- The ordering used by the comparator `(a, b) => a.distance - b.distance`
of line 115. -/
def distLE (a b : RankedStation) : Prop := a.distance ≤ b.distance

noncomputable instance : DecidableRel distLE :=
  fun a b => Real.decidableLE a.distance b.distance

instance : IsTotal RankedStation distLE :=
  ⟨fun a b => le_total a.distance b.distance⟩

instance : IsTrans RankedStation distLE :=
  ⟨fun _ _ _ h₁ h₂ => le_trans h₁ h₂⟩

/-- Station selection (lines 104-116): attach distances, sort ascending by
distance (JS `Array.prototype.sort` is stable, modelled by the stable
`List.insertionSort`), and `slice(0, 3)`. -/
noncomputable def selectNearest (origin : Coordinate) (candidates : List RawStation) :
    List RankedStation :=
  (List.insertionSort distLE (candidates.map (attachDistance origin))).take 3

/-- The six pollutant codes read from `iaqi` (lines 166-171). -/
inductive Pollutant where
  | pm25 | pm10 | o3 | no2 | so2 | co

/-- The `iaqi` block of a feed response: per-pollutant instantaneous
values, each possibly absent (`s.iaqi.pm25?.v` is `undefined` when the
station does not report pm25). -/
structure Iaqi where
  pm25 : Option ℚ
  pm10 : Option ℚ
  o3 : Option ℚ
  no2 : Option ℚ
  so2 : Option ℚ
  co : Option ℚ

/-- Look up one pollutant value in an `iaqi` block. -/
def Iaqi.get (i : Iaqi) : Pollutant → Option ℚ
  | Pollutant.pm25 => i.pm25
  | Pollutant.pm10 => i.pm10
  | Pollutant.o3 => i.o3
  | Pollutant.no2 => i.no2
  | Pollutant.so2 => i.so2
  | Pollutant.co => i.co

/-- The part of a feed response (`r.data.data`) that `processStationData`
reads: scalar `aqi`, the `iaqi` block, `time.iso`, and `city.name`. -/
structure StationData where
  aqi : ℚ
  iaqi : Iaqi
  time : String
  cityName : String

/-- The `pollutants` object built at lines 165-172. -/
structure Pollutants where
  pm25 : Option ℚ
  pm10 : Option ℚ
  o3 : Option ℚ
  no2 : Option ℚ
  so2 : Option ℚ
  co : Option ℚ

/-- Look up one aggregated pollutant value. -/
def Pollutants.get (p : Pollutants) : Pollutant → Option ℚ
  | Pollutant.pm25 => p.pm25
  | Pollutant.pm10 => p.pm10
  | Pollutant.o3 => p.o3
  | Pollutant.no2 => p.no2
  | Pollutant.so2 => p.so2
  | Pollutant.co => p.co

/-- One entry of `CompositeReading.stations` (lines 174-178). -/
structure StationSummary where
  name : String
  aqi : ℚ
  distance : ℝ

/-- The aggregated reading built by `processStationData` (lines 162-180). -/
structure CompositeReading where
  aqi : Option ℚ
  pollutants : Pollutants
  time : Option String
  stations : List StationSummary

/-- `weightedAverage` (lines 182-186): drop exactly the `undefined`
entries, return `null` when nothing is left, otherwise
`Math.round(sum / count)`.  The local `validValues` is inlined as
`values.filterMap id`; `reduce((a, b) => a + b, 0)` is the left fold
with initial value 0. -/
def weightedAverage (values : List (Option ℚ)) : Option ℚ :=
  if (values.filterMap id).length = 0 then none
  else some ((jsRound ((values.filterMap id).foldl (· + ·) 0 /
    ((values.filterMap id).length : ℚ)) : ℤ) : ℚ)

/-- `processStationData` (lines 162-180).  `stations[0].time.iso` is
modelled with `head?` (the caller always passes a non-empty list); the
index-parallel walk over `originalStations` is modelled with `zip`. -/
def processStationData (stations : List StationData)
    (originalStations : List RankedStation) : CompositeReading :=
  { aqi := weightedAverage (stations.map fun s => some s.aqi)
    pollutants :=
      { pm25 := weightedAverage (stations.map fun s => s.iaqi.pm25)
        pm10 := weightedAverage (stations.map fun s => s.iaqi.pm10)
        o3 := weightedAverage (stations.map fun s => s.iaqi.o3)
        no2 := weightedAverage (stations.map fun s => s.iaqi.no2)
        so2 := weightedAverage (stations.map fun s => s.iaqi.so2)
        co := weightedAverage (stations.map fun s => s.iaqi.co) }
    time := stations.head?.map fun s => s.time
    stations := (stations.zip originalStations).map fun p =>
      { name := p.1.cityName, aqi := p.1.aqi, distance := p.2.distance } }

/-- The `Promise.all` join of lines 119-123: all-or-nothing, any
rejection rejects the whole join. -/
def promiseAll {ε α : Type} : List (Except ε α) → Except ε (List α)
  | [] => Except.ok []
  | Except.error e :: _ => Except.error e
  | Except.ok a :: rs =>
    match promiseAll rs with
    | Except.ok as => Except.ok (a :: as)
    | Except.error e => Except.error e

/-- One day of `forecast.daily.<pollutant>`: `{ day, avg }`. -/
structure DayEntry where
  day : String
  avg : ℚ
  deriving DecidableEq

/-- The `forecast.daily` object, as an association list preserving the
payload's key insertion order (JS object key order). -/
abbrev Daily := List (String × List DayEntry)

/-- JS property access `daily[k]` on the modelled object. -/
def lookupDaily (daily : Daily) (k : String) : Option (List DayEntry) :=
  (daily.find? fun p => p.1 == k).map fun p => p.2

/-- The feed payload stored in `historicalData`, reduced to the part
`prepareChartData` reads: `data.forecast.daily`, `none` when `data` has
no `forecast` or the forecast has no `daily`. -/
structure HistoricalData where
  forecastDaily : Option Daily
  deriving DecidableEq

/-- One chart dataset (label and data points; the static style fields of
lines 226-228 are presentation and carry no data). -/
structure ChartDataset where
  label : String
  data : List ℚ
  deriving DecidableEq

/-- The chart-ready value returned by `prepareChartData`: date labels and
datasets.  Labels keep the raw `day` strings (`toLocaleDateString` is a
locale-dependent presentation of the same value). -/
structure ChartData where
  labels : List String
  datasets : List ChartDataset
  deriving DecidableEq

/-- `prepareChartData` (lines 216-266): build one dataset per recognized
pollutant (`pm25`, `pm10`, `o3`, in that order) that is present with a
non-empty series, return `null` when there is none, and take the date
labels from `daily[Object.keys(daily)[0]]` — the first key of the daily
object (its `head?` in the association-list model). -/
def prepareChartData (data : Option HistoricalData) : Option ChartData :=
  match data with
  | none => none
  | some d =>
    match d.forecastDaily with
    | none => none
    | some daily =>
      let pm25sets : List ChartDataset :=
        match lookupDaily daily "pm25" with
        | some l => if 0 < l.length then [{ label := "PM2.5", data := l.map fun e => e.avg }] else []
        | none => []
      let pm10sets : List ChartDataset :=
        match lookupDaily daily "pm10" with
        | some l => if 0 < l.length then [{ label := "PM10", data := l.map fun e => e.avg }] else []
        | none => []
      let o3sets : List ChartDataset :=
        match lookupDaily daily "o3" with
        | some l => if 0 < l.length then [{ label := "O3", data := l.map fun e => e.avg }] else []
        | none => []
      let datasets := pm25sets ++ pm10sets ++ o3sets
      if datasets.length = 0 then none
      else
        let dates :=
          match daily.head? with
          | some entry => entry.2.map fun e => e.day
          | none => []
        some { labels := dates, datasets := datasets }

/-- The component state touched by `fetchAQI`: the `aqi`, `error`,
`loading` and `historicalData` `useState` cells. -/
structure AppState where
  aqi : Option CompositeReading
  error : Option String
  loading : Bool
  historicalData : Option HistoricalData

/-- The fallback message of lines 140-143. -/
def defaultFetchErrorMsg : String := "Failed to fetch AQI data. Please try again later."

/-- JS `err.response?.data?.message || default`: the carried message when
present and truthy (non-empty), the default otherwise. -/
def jsOrDefault (m : Option String) : String :=
  match m with
  | some s => if s = "" then defaultFetchErrorMsg else s
  | none => defaultFetchErrorMsg

/-- The aggregation phase of `fetchAQI` (lines 118-147), given the
already-selected stations: join the per-station detail fetches with
`promiseAll`; on success store the aggregate via `setAqi` and the
historical payload when its own fetch succeeded (that failure is only
logged); on any detail-fetch failure fall to the `catch` arm, which sets
the error message and leaves `aqi` untouched.  `setLoading(false)` runs
in `finally` on both paths. -/
def aggregateStep (details : List (Except (Option String) StationData))
    (stations : List RankedStation) (hist : Except (Option String) HistoricalData)
    (st : AppState) : AppState :=
  match promiseAll details with
  | Except.ok ds =>
    let st1 := { st with aqi := some (processStationData ds stations) }
    let st2 :=
      match hist with
      | Except.ok h => { st1 with historicalData := some h }
      | Except.error _ => st1
    { st2 with loading := false }
  | Except.error e =>
    { st with error := some (jsOrDefault e), loading := false }

/-- An `iaqi` block with every pollutant absent. -/
def iaqiEmpty : Iaqi :=
  { pm25 := none, pm10 := none, o3 := none, no2 := none, so2 := none, co := none }

/-- Concrete station detail with scalar AQI 50 and no pollutant readings. -/
def stA : StationData :=
  { aqi := 50, iaqi := iaqiEmpty, time := "2024-01-01T00:00:00Z", cityName := "A" }

/-- Concrete station detail with scalar AQI 150 and no pollutant readings. -/
def stB : StationData :=
  { aqi := 150, iaqi := iaqiEmpty, time := "2024-01-01T01:00:00Z", cityName := "B" }

/-- Concrete station detail reporting pm25 = 1. -/
def stP1 : StationData :=
  { aqi := 10, iaqi := { iaqiEmpty with pm25 := some 1 },
    time := "2024-01-01T00:00:00Z", cityName := "P1" }

/-- Concrete station detail reporting pm25 = 2. -/
def stP2 : StationData :=
  { aqi := 20, iaqi := { iaqiEmpty with pm25 := some 2 },
    time := "2024-01-01T01:00:00Z", cityName := "P2" }

/-- Concrete `forecast.daily` payload whose first object key is a `pm10`
series with no entries, while `pm25` has data. -/
def dailyBug : Daily :=
  [("pm10", []), ("pm25", [{ day := "2024-01-01", avg := 10 }])]

/-- A concrete initial component state. -/
def st0 : AppState :=
  { aqi := none, error := none, loading := false, historicalData := none }

/-- A concrete detail-fetch outcome list with a single failed fetch. -/
def detailsFail : List (Except (Option String) StationData) := [Except.error none]

theorem foldl_add_eq_sum (l : List ℚ) (init : ℚ) :
    l.foldl (· + ·) init = init + l.sum := by
  induction l generalizing init with
  | nil => simp
  | cons a t ih => rw [List.foldl_cons, ih, List.sum_cons]; ring

theorem weightedAverage_eq (vs : List (Option ℚ)) :
    weightedAverage vs =
      if vs.filterMap id = [] then none
      else some ((jsRound ((vs.filterMap id).sum /
        ((vs.filterMap id).length : ℚ)) : ℤ) : ℚ) := by
  unfold weightedAverage
  by_cases h : (vs.filterMap id).length = 0
  · rw [if_pos h, if_pos (List.length_eq_zero.mp h)]
  · rw [if_neg h, if_neg fun he => h (by rw [he]; rfl), foldl_add_eq_sum, zero_add]

theorem weightedAverage_map_eq (ds : List StationData) (f : StationData → Option ℚ) :
    weightedAverage (ds.map f) =
      if ds.filterMap f = [] then none
      else some ((jsRound ((ds.filterMap f).sum /
        ((ds.filterMap f).length : ℚ)) : ℤ) : ℚ) := by
  rw [weightedAverage_eq]
  have h : (ds.map f).filterMap id = ds.filterMap f := by
    rw [List.filterMap_map]; rfl
  rw [h]

theorem filterMap_some_eq_map (ds : List StationData) :
    ds.filterMap (fun s => some s.aqi) = ds.map fun s => s.aqi := by
  induction ds with
  | nil => rfl
  | cons a t ih => simp [List.filterMap_cons, ih]

/-- Claim C1 counterexample: on two stations reporting pm25 values 1 and 2,
the aggregated pm25 value is 2 (the rounded mean), which is not the
arithmetic mean 3/2, so the aggregated value is not the arithmetic mean
as claimed. -/
theorem pollutant_mean_unrounded_cex :
    (processStationData [stP1, stP2] []).pollutants.pm25 = some 2 ∧
      ¬((2 : ℚ) = ((1 : ℚ) + 2) / 2) := by
  refine ⟨?_, by norm_num⟩
  show weightedAverage ([stP1, stP2].map fun s => s.iaqi.pm25) = some 2
  rw [weightedAverage_map_eq]
  norm_num [stP1, stP2, iaqiEmpty, jsRound, List.filterMap_cons]
  exact fun hc => absurd hc (by simp)

/-- Claim C1 (amended): for every selected station list and every pollutant
code, the aggregated value in `CompositeReading.pollutants` is the
arithmetic mean, rounded to the nearest integer by JS `Math.round`, of
that pollutant's values taken over exactly the stations that report it;
if no selected station reports the pollutant the value is absent (`none`,
not zero), and missing values are never folded into the average. -/
theorem pollutant_mean_rounded (ds : List StationData) (os : List RankedStation)
    (p : Pollutant) :
    Pollutants.get (processStationData ds os).pollutants p =
      if ds.filterMap (fun s => Iaqi.get s.iaqi p) = [] then none
      else some ((jsRound ((ds.filterMap fun s => Iaqi.get s.iaqi p).sum /
        ((ds.filterMap fun s => Iaqi.get s.iaqi p).length : ℚ)) : ℤ) : ℚ) := by
  cases p with
  | pm25 => exact weightedAverage_map_eq ds fun s => s.iaqi.pm25
  | pm10 => exact weightedAverage_map_eq ds fun s => s.iaqi.pm10
  | o3 => exact weightedAverage_map_eq ds fun s => s.iaqi.o3
  | no2 => exact weightedAverage_map_eq ds fun s => s.iaqi.no2
  | so2 => exact weightedAverage_map_eq ds fun s => s.iaqi.so2
  | co => exact weightedAverage_map_eq ds fun s => s.iaqi.co

/-- Claim C9: a reported value of 0 counts as present.  Consing a zero
reading onto any value list enlarges the divisor by one (the zero is
averaged in, not dropped), and the aggregate is absent exactly when every
entry is `undefined`. -/
theorem zero_reading_included :
    (∀ vs : List (Option ℚ),
      weightedAverage (some 0 :: vs) =
        some ((jsRound ((vs.filterMap id).sum /
          (((vs.filterMap id).length : ℚ) + 1)) : ℤ) : ℚ)) ∧
    ∀ vs : List (Option ℚ), weightedAverage vs = none ↔ vs.filterMap id = [] := by
  constructor
  · intro vs
    rw [weightedAverage_eq]
    have h : (some (0 : ℚ) :: vs).filterMap id = 0 :: vs.filterMap id := by
      simp [List.filterMap_cons]
    rw [h, if_neg (by simp)]
    have h3 : (((0 : ℚ) :: vs.filterMap id).sum /
        ((((0 : ℚ) :: vs.filterMap id).length) : ℚ)) =
        (vs.filterMap id).sum / (((vs.filterMap id).length : ℚ) + 1) := by
      rw [List.sum_cons, zero_add, List.length_cons]
      push_cast
      ring
    rw [h3]
  · intro vs
    rw [weightedAverage_eq]
    by_cases h : vs.filterMap id = []
    · simp [h]
    · simp [h]

/-- Claim C4: for a non-empty station list the composite `aqi` is the
arithmetic mean of the stations' scalar AQI values, rounded to the
nearest integer. -/
theorem composite_aqi_mean (ds : List StationData) (os : List RankedStation)
    (h : ds ≠ []) :
    (processStationData ds os).aqi =
      some ((jsRound ((ds.map fun s => s.aqi).sum / (ds.length : ℚ)) : ℤ) : ℚ) := by
  have key := weightedAverage_map_eq ds fun s => some s.aqi
  rw [show (processStationData ds os).aqi =
      weightedAverage (ds.map fun s => some s.aqi) from rfl, key,
    filterMap_some_eq_map ds,
    if_neg fun he => h (List.map_eq_nil_iff.mp he), List.length_map]

/-- Witness for C4: aggregating stations with AQIs 50 and 150 yields
composite aqi 100. -/
theorem composite_aqi_mean_witness :
    ([stA, stB] ≠ ([] : List StationData)) ∧
      (processStationData [stA, stB] []).aqi = some 100 := by
  refine ⟨by simp, ?_⟩
  have h := composite_aqi_mean [stA, stB] [] (by simp)
  rw [h]
  norm_num [stA, stB, jsRound]

/-- Claim C10: every non-absent numeric value the aggregator produces (the
composite AQI and each per-pollutant average) is an integer. -/
theorem aggregates_are_integers (ds : List StationData) (os : List RankedStation) :
    (∀ q : ℚ, (processStationData ds os).aqi = some q → ∃ n : ℤ, q = (n : ℚ)) ∧
    ∀ (p : Pollutant) (q : ℚ),
      Pollutants.get (processStationData ds os).pollutants p = some q →
        ∃ n : ℤ, q = (n : ℚ) := by
  have key : ∀ (vs : List (Option ℚ)) (q : ℚ),
      weightedAverage vs = some q → ∃ n : ℤ, q = (n : ℚ) := by
    intro vs q h
    unfold weightedAverage at h
    by_cases h0 : (vs.filterMap id).length = 0
    · rw [if_pos h0] at h; exact Option.noConfusion h
    · rw [if_neg h0] at h
      exact ⟨jsRound _, (Option.some.inj h).symm⟩
  constructor
  · intro q h; exact key _ q h
  · intro p q h
    cases p with
    | pm25 => exact key _ q h
    | pm10 => exact key _ q h
    | o3 => exact key _ q h
    | no2 => exact key _ q h
    | so2 => exact key _ q h
    | co => exact key _ q h

/-- Witness for C10: the composite AQI of the 50/150 pair is 100, an
integer. -/
theorem aggregates_are_integers_witness :
    ((processStationData [stA, stB] []).aqi = some 100) ∧
      ∃ n : ℤ, (100 : ℚ) = (n : ℚ) := by
  have haqi : (processStationData [stA, stB] []).aqi = some 100 := by
    show weightedAverage ([stA, stB].map fun s => some s.aqi) = some 100
    rw [weightedAverage_map_eq]
    norm_num [stA, stB, jsRound, List.filterMap_cons]
    exact fun hc => absurd hc (by simp)
  exact ⟨haqi, (aggregates_are_integers [stA, stB] []).1 100 haqi⟩

theorem promiseAll_isError {ε α : Type} {l : List (Except ε α)}
    (h : ∃ e, Except.error e ∈ l) : ∃ e₁, promiseAll l = Except.error e₁ := by
  induction l with
  | nil => obtain ⟨e, he⟩ := h; simp at he
  | cons r rs ih =>
    obtain ⟨e, he⟩ := h
    cases r with
    | error e₀ => exact ⟨e₀, rfl⟩
    | ok a =>
      have hm : Except.error e ∈ rs := by
        rcases List.mem_cons.mp he with h1 | h1
        · exact Except.noConfusion h1
        · exact h1
      obtain ⟨e₁, hp⟩ := ih ⟨e, hm⟩
      exact ⟨e₁, by simp [promiseAll, hp]⟩

/-- Claim C3: if any per-station detail fetch fails, the `Promise.all`
join fails, the composite-reading state is left exactly as it was (no
partial aggregate from the successful subset), and the error state is
set instead. -/
theorem aggregate_fail_fast (details : List (Except (Option String) StationData))
    (stations : List RankedStation) (hist : Except (Option String) HistoricalData)
    (st : AppState) (h : ∃ e, Except.error e ∈ details) :
    (∃ e₁, promiseAll details = Except.error e₁) ∧
      (aggregateStep details stations hist st).aqi = st.aqi ∧
      ∃ msg, (aggregateStep details stations hist st).error = some msg := by
  obtain ⟨e₁, hp⟩ := promiseAll_isError h
  refine ⟨⟨e₁, hp⟩, ?_, ⟨jsOrDefault e₁, ?_⟩⟩
  · simp [aggregateStep, hp]
  · simp [aggregateStep, hp]

/-- Witness for C3: one failing detail fetch leaves the initial state's
composite reading untouched. -/
theorem aggregate_fail_fast_witness :
    (∃ e₁, promiseAll detailsFail = Except.error e₁) ∧
      (aggregateStep detailsFail [] (Except.error none) st0).aqi = st0.aqi ∧
      ∃ msg, (aggregateStep detailsFail [] (Except.error none) st0).error = some msg :=
  aggregate_fail_fast detailsFail [] (Except.error none) st0 ⟨none, by simp [detailsFail]⟩

/-- Claim C5 counterexample: the whitespace-only query `" "` is truthy in
JS, so `loadOptions` issues a network call (count 1) and does not return
the empty sequence, contradicting the claim for whitespace-only
queries. -/
theorem whitespace_query_calls_cex :
    (loadOptions " " (NetResponse.ok [])).2 = 1 ∧
      (loadOptions " " (NetResponse.ok [])).1 ≠ [] := by
  decide

/-- Claim C5 (amended): for the empty query string the Geocoder search
returns an empty sequence and issues no network call; every non-empty
query, including whitespace-only ones, issues exactly one network
call. -/
theorem empty_query_no_call :
    (∀ net, loadOptions "" net = ([], 0)) ∧
      ∀ (s : String) (net : NetResponse), s ≠ "" → (loadOptions s net).2 = 1 := by
  constructor
  · intro net; rfl
  · intro s net hs
    cases net with
    | err => simp [loadOptions, hs]
    | ok items =>
      by_cases h0 : items.length = 0
      · simp [loadOptions, hs, h0]
      · simp [loadOptions, hs, h0]

/-- Witness for C5 (amended): the empty query makes no call; the
whitespace query makes one. -/
theorem empty_query_no_call_witness :
    loadOptions "" NetResponse.err = ([], 0) ∧ (" " ≠ "") ∧
      (loadOptions " " NetResponse.err).2 = 1 :=
  ⟨empty_query_no_call.1 NetResponse.err, by decide,
    empty_query_no_call.2 " " NetResponse.err (by decide)⟩

/-- Claim C7: for any non-empty query the Geocoder search never raises
(`loadOptions` is total in the model): a network or parse failure yields
exactly one non-selectable sentinel labelled "Error loading locations",
and a successful response with zero matches yields exactly one
non-selectable sentinel labelled "No locations found". -/
theorem geocoder_sentinels (s : String) (h : s ≠ "") :
    loadOptions s NetResponse.err =
        ([{ label := "Error loading locations", value := none, isDisabled := true }], 1) ∧
      loadOptions s (NetResponse.ok []) =
        ([{ label := "No locations found", value := none, isDisabled := true }], 1) := by
  constructor
  · simp [loadOptions, h]
  · simp [loadOptions, h]

/-- Witness for C7 at the concrete query "x". -/
theorem geocoder_sentinels_witness :
    ("x" ≠ "") ∧ loadOptions "x" NetResponse.err =
      ([{ label := "Error loading locations", value := none, isDisabled := true }], 1) :=
  ⟨by decide, (geocoder_sentinels "x" (by decide)).1⟩

/-- Claim C6 evaluation at the failing input: with
`forecast.daily = (pm10 ↦ [], pm25 ↦ [Jan 1, avg 10])` the code derives
the date labels from the first object key (`pm10`, empty, so no labels)
even though `pm25` — the first recognized pollutant in enumeration order
with data — has a date to offer, so the chart keeps a PM2.5 dataset with
an empty date axis. -/
theorem chart_labels_first_key_eval :
    prepareChartData (some { forecastDaily := some dailyBug }) =
        some { labels := [], datasets := [{ label := "PM2.5", data := [10] }] } ∧
      lookupDaily dailyBug "pm25" = some [{ day := "2024-01-01", avg := 10 }] := by
  decide

theorem haversineTerm_comm (lat1 lon1 lat2 lon2 : ℝ) :
    haversineTerm lat1 lon1 lat2 lon2 = haversineTerm lat2 lon2 lat1 lon1 := by
  unfold haversineTerm
  have h1 : Real.sin ((lat1 - lat2) * Real.pi / 180 / 2) =
      -Real.sin ((lat2 - lat1) * Real.pi / 180 / 2) := by
    rw [show (lat1 - lat2) * Real.pi / 180 / 2 =
      -((lat2 - lat1) * Real.pi / 180 / 2) from by ring, Real.sin_neg]
  have h2 : Real.sin ((lon1 - lon2) * Real.pi / 180 / 2) =
      -Real.sin ((lon2 - lon1) * Real.pi / 180 / 2) := by
    rw [show (lon1 - lon2) * Real.pi / 180 / 2 =
      -((lon2 - lon1) * Real.pi / 180 / 2) from by ring, Real.sin_neg]
  rw [h1, h2]
  ring

/-- Claim C8: the haversine distance is symmetric in its two coordinate
arguments, and the distance from a coordinate to itself is 0. -/
theorem calculateDistance_symm_zero :
    (∀ lat1 lon1 lat2 lon2 : ℝ,
      calculateDistance lat1 lon1 lat2 lon2 = calculateDistance lat2 lon2 lat1 lon1) ∧
    ∀ lat lon : ℝ, calculateDistance lat lon lat lon = 0 := by
  constructor
  · intro lat1 lon1 lat2 lon2
    unfold calculateDistance
    rw [haversineTerm_comm]
  · intro lat lon
    have h0 : haversineTerm lat lon lat lon = 0 := by
      unfold haversineTerm
      rw [show (lat - lat) * Real.pi / 180 / 2 = 0 from by ring,
        show (lon - lon) * Real.pi / 180 / 2 = 0 from by ring, Real.sin_zero]
      ring
    unfold calculateDistance
    rw [h0, Real.sqrt_zero, sub_zero, Real.sqrt_one]
    unfold atan2
    rw [if_pos (by norm_num : (0 : ℝ) < 1), zero_div, Real.arctan_zero]
    ring

/-- Claim C2: station selection returns at most 3 stations, ordered by
non-decreasing distance from the origin (the `distance` key attached by
`attachDistance` is the haversine distance from the origin), and it is
stable: for every distance value, the selected stations at that distance
are an initial segment of the distance-attached input stations at that
distance, in input order. -/
theorem selectNearest_sorted_stable (origin : Coordinate) (candidates : List RawStation) :
    (selectNearest origin candidates).length ≤ 3 ∧
    (selectNearest origin candidates).Pairwise (fun a b => a.distance ≤ b.distance) ∧
    ∀ d : ℝ, ∃ rest : List RankedStation,
      (selectNearest origin candidates).filter (fun s => decide (s.distance = d)) ++ rest =
        (candidates.map (attachDistance origin)).filter (fun s => decide (s.distance = d)) := by
  refine ⟨?_, ?_, ?_⟩
  · rw [selectNearest, List.length_take]
    exact min_le_left _ _
  · exact List.Pairwise.sublist (List.take_sublist _ _)
      (List.sorted_insertionSort distLE (candidates.map (attachDistance origin)))
  · intro d
    set L := candidates.map (attachDistance origin) with hL
    set p : RankedStation → Bool := fun s => decide (s.distance = d) with hp
    have hmem : ∀ a ∈ L.filter p, a.distance = d := by
      intro a ha
      have h := (List.mem_filter.mp ha).2
      rw [hp] at h
      exact of_decide_eq_true h
    have hpair : (L.filter p).Pairwise distLE := by
      refine List.pairwise_of_forall_mem_list ?_
      intro a ha b hb
      show a.distance ≤ b.distance
      rw [hmem a ha, hmem b hb]
    have hsub : List.Sublist (L.filter p) (List.insertionSort distLE L) :=
      List.sublist_insertionSort hpair (List.filter_sublist L)
    have hself : (L.filter p).filter p = L.filter p := by
      rw [List.filter_eq_self]
      intro a ha
      exact (List.mem_filter.mp ha).2
    have hsub2 : List.Sublist (L.filter p) ((List.insertionSort distLE L).filter p) := by
      have h := List.Sublist.filter p hsub
      rwa [hself] at h
    have hperm : List.Perm ((List.insertionSort distLE L).filter p) (L.filter p) :=
      List.Perm.filter p (List.perm_insertionSort distLE L)
    have heq : L.filter p = (List.insertionSort distLE L).filter p :=
      hsub2.eq_of_length hperm.length_eq.symm
    refine ⟨((List.insertionSort distLE L).drop 3).filter p, ?_⟩
    rw [selectNearest, ← hL, ← List.filter_append, List.take_append_drop, ← heq]
